import Mathlib

/-!
Shallow embedding of `src/dependencies/code_builder/start_build.py`
(the CloudFormation custom-resource handler that triggers a CodeBuild
project and polls it to completion).

Modelling decisions:
* A `ProvisioningEvent` is a record of the fields the code reads
  (`RequestType`, `ResponseURL`, `StackId`, `RequestId`,
  `LogicalResourceId`): the spec's data model presents these as the
  event's required attributes.
* The execution context exposes `log_stream_name` and
  `get_remaining_time_in_millis`; successive calls of the latter are
  modelled by an oracle `remaining_ms : Nat → Nat` giving the value
  returned at the i-th poll iteration.  Python computes
  `millis / 1000 < 60` with float division; for integral inputs this is
  equivalent to `millis / 1000 < 60` with floor division, which is how
  it is written here.
* The external CodeBuild service is an oracle: `startBuild` is the
  combined outcome of `boto3.client` / `start_build` /
  `response['build']['id']` (either a build id or the text of the raised
  exception), and `buildStatus i` is the outcome of the i-th
  `batch_get_builds` call (a status string, or the text of a raised
  exception).
* `send`'s `responseData` argument is always a one-key mapping
  `message: <string>` in this program, so the payload is modelled by
  the message string, and the JSON serializer prints the mapping shape
  around it.
* The HTTP transport used by `send` is an oracle `Transport`: either a
  response with some status code, or a raised exception.  `send` returns
  the response body dict on success and the empty dict on exception;
  this is modelled by `Option ResponseBody` (`none` = the empty dict).
* `json.dumps` (with its default `ensure_ascii=True`, `", "` / `": "`
  separators and the insertion order of the dict literal) is modelled
  by `dumps` below, including the ASCII escaping of every character
  outside `0x20..0x7e`.
-/

namespace StartBuild

/-- The incoming CloudFormation event, restricted to the fields the code
reads.  `RequestType` is compared against `"Create"`; the other four are
copied into every callback. -/
structure ProvisioningEvent where
  RequestType : String
  ResponseURL : String
  StackId : String
  RequestId : String
  LogicalResourceId : String
deriving Repr, DecidableEq

/-- The Lambda execution context: the log-stream name and the oracle for
`context.get_remaining_time_in_millis()`, indexed by poll iteration. -/
structure LambdaContext where
  log_stream_name : String
  remaining_ms : Nat → Nat

/-- The external CodeBuild service, as an oracle.  `startBuild` is the
combined result of creating the client, starting the build and reading
`response['build']['id']`; `buildStatus i` is the result of the i-th
`batch_get_builds` call. -/
structure BuildService where
  startBuild : Except String String
  buildStatus : Nat → Except String String

/-- Outcome of the single `http.request('PUT', ...)` call inside `send`:
either a response carrying an HTTP status code, or a raised exception. -/
inductive Transport where
  | ok (statusCode : Nat) : Transport
  | exn (e : String) : Transport
deriving Repr, DecidableEq

/-- The fixed-shape callback body built by `send` (the Python
`responseBody` dict, in insertion order).  `Data` holds the message
string of the `message: <string>` payload. -/
structure ResponseBody where
  Status : String
  Reason : String
  PhysicalResourceId : String
  StackId : String
  RequestId : String
  LogicalResourceId : String
  NoEcho : Bool
  Data : String
deriving Repr, DecidableEq

/-- The HTTP request `send` issues: method, URL, the two headers and the
body. -/
structure HttpRequest where
  method : String
  url : String
  contentType : String
  contentLength : String
  body : String
deriving Repr, DecidableEq

/-- Python's `x or default` for an optional string argument: `None` and
`""` are falsy and select the default. -/
def pyOr (x : Option String) (default : String) : String :=
  match x with
  | none => default
  | some s => if s = "" then default else s

/-- The `responseBody` dict built at the top of `send`, as a function of
the event, the context and `send`'s arguments. -/
def buildResponseBody (event : ProvisioningEvent) (context : LambdaContext)
    (responseStatus : String) (responseData : String)
    (physicalResourceId : Option String) (noEcho : Bool)
    (reason : Option String) : ResponseBody :=
  { Status := responseStatus
    Reason := pyOr reason
      ("See the details in CloudWatch Log Stream: " ++ context.log_stream_name)
    PhysicalResourceId := pyOr physicalResourceId context.log_stream_name
    StackId := event.StackId
    RequestId := event.RequestId
    LogicalResourceId := event.LogicalResourceId
    NoEcho := noEcho
    Data := responseData }

/-- The lowercase hex digit for `n % 16`, as used by the `\uXXXX`
escapes of `json.dumps(..., ensure_ascii=True)`. -/
def hexDigit (n : Nat) : Char :=
  Nat.digitChar (n % 16)

/-- Four-digit lowercase hex rendering of `n` (mod 2^16), as used in
`\uXXXX` escapes. -/
def toHex4 (n : Nat) : List Char :=
  [hexDigit (n / 4096), hexDigit (n / 256), hexDigit (n / 16), hexDigit n]

/-- JSON string-character escaping as performed by `json.dumps` with
`ensure_ascii=True`: the two-character escapes for quote, backslash and
the common control characters, printable ASCII unchanged, and `\uXXXX`
(with surrogate pairs above `0xFFFF`) for everything else. -/
def escapeChar (c : Char) : List Char :=
  if c = '"' then ['\\', '"']
  else if c = '\\' then ['\\', '\\']
  else if c = '\n' then ['\\', 'n']
  else if c = '\r' then ['\\', 'r']
  else if c = '\t' then ['\\', 't']
  else if c = '\x08' then ['\\', 'b']
  else if c = '\x0c' then ['\\', 'f']
  else if 0x20 ≤ c.toNat ∧ c.toNat ≤ 0x7e then [c]
  else if c.toNat < 0x10000 then '\\' :: 'u' :: toHex4 c.toNat
  else ('\\' :: 'u' :: toHex4 (0xD800 + (c.toNat - 0x10000) / 1024))
    ++ ('\\' :: 'u' :: toHex4 (0xDC00 + (c.toNat - 0x10000) % 1024))

/-- Escape every character of a string body. -/
def escapeList : List Char → List Char
  | [] => []
  | c :: cs => escapeChar c ++ escapeList cs

/-- A JSON string literal: quotes around the escaped characters. -/
def jstr (s : String) : String :=
  String.mk ('"' :: (escapeList s.data ++ ['"']))

/-- `json.dumps(responseBody)`: the dict keys in insertion order, with
the default `", "` and `": "` separators, booleans as `true` / `false`,
and `Data` printed as the one-key mapping `message: <string>`. -/
def dumps (b : ResponseBody) : String :=
  "\x7b\"Status\": " ++ jstr b.Status
    ++ ", \"Reason\": " ++ jstr b.Reason
    ++ ", \"PhysicalResourceId\": " ++ jstr b.PhysicalResourceId
    ++ ", \"StackId\": " ++ jstr b.StackId
    ++ ", \"RequestId\": " ++ jstr b.RequestId
    ++ ", \"LogicalResourceId\": " ++ jstr b.LogicalResourceId
    ++ ", \"NoEcho\": " ++ (if b.NoEcho then "true" else "false")
    ++ ", \"Data\": \x7b\"message\": " ++ jstr b.Data ++ "\x7d\x7d"

/-- UTF-8 byte length of a string: the sum of the UTF-8 sizes of its
characters. -/
def utf8Len (s : String) : Nat :=
  (s.data.map Char.utf8Size).sum

/-- The `send` function: builds the response body, serializes it,
issues one HTTP PUT with `content-type: ""` and
`content-length: str(len(body))`, and returns the body dict on success
or the empty dict (`none`) when the request raises. -/
def send (event : ProvisioningEvent) (context : LambdaContext)
    (responseStatus : String) (responseData : String)
    (physicalResourceId : Option String) (noEcho : Bool)
    (reason : Option String) (transport : Transport) :
    HttpRequest × Option ResponseBody :=
  let responseBody := buildResponseBody event context responseStatus
    responseData physicalResourceId noEcho reason
  let json_responseBody := dumps responseBody
  let req : HttpRequest :=
    { method := "PUT"
      url := event.ResponseURL
      contentType := ""
      contentLength := toString json_responseBody.length
      body := json_responseBody }
  match transport with
  | .ok _ => (req, some responseBody)
  | .exn _ => (req, none)

/-- The return strings of `lambda_handler`. -/
def retSuccess : String := "\x7b \"status\": 200, \"message\": \"success\" \x7d"

def retTimeout : String := "\x7b \"status\": 500, \"message\": \"timeout\" \x7d"

def retBuildFailed : String := "\x7b \"status\": 500, \"message\": \"build_failed\" \x7d"

def retError : String := "\x7b \"status\": 500, \"message\": \"error\" \x7d"

/-- The terminal-failure status list of the `elif` branch. -/
def terminalFailureStatuses : List String :=
  ["FAILED", "FAULT", "STOPPED", "TIMED_OUT"]

/-- Callback body of the imminent-self-timeout branch. -/
def timeoutBody (event : ProvisioningEvent) (context : LambdaContext)
    (build_id : String) : ResponseBody :=
  buildResponseBody event context "FAILED"
    ("Lambda timeout approaching. Build " ++ build_id
      ++ " still running. Please check CodeBuild console.")
    none false none

/-- Callback body of the build-succeeded branch. -/
def successBody (event : ProvisioningEvent) (context : LambdaContext)
    (build_id : String) : ResponseBody :=
  buildResponseBody event context "SUCCESS"
    ("CodeBuild project completed successfully. Build ID: " ++ build_id)
    none false none

/-- Callback body of the build-terminal-failure branch. -/
def failedBody (event : ProvisioningEvent) (context : LambdaContext)
    (status build_id : String) : ResponseBody :=
  buildResponseBody event context "FAILED"
    ("CodeBuild " ++ status ++ ". Build ID: " ++ build_id
      ++ ". Check CloudWatch logs.")
    none false none

/-- Callback body of the loop-budget-exhaustion branch
(`max_wait_time = 900`). -/
def budgetBody (event : ProvisioningEvent) (context : LambdaContext)
    (build_id : String) : ResponseBody :=
  buildResponseBody event context "FAILED"
    ("CodeBuild did not complete within 900s. Build ID: " ++ build_id)
    none false none

/-- Callback body of the top-level `except` branch. -/
def errorBody (event : ProvisioningEvent) (context : LambdaContext)
    (e : String) : ResponseBody :=
  buildResponseBody event context "FAILED" ("Error: " ++ e) none false none

/-- Callback body of the non-create branch. -/
def noActionBody (event : ProvisioningEvent) (context : LambdaContext) :
    ResponseBody :=
  buildResponseBody event context "SUCCESS" "No action required" none false none

/-- The `while elapsed_time < max_wait_time` poll loop.  `i` is the
iteration index (driving the remaining-time and build-status oracles),
`elapsed` is `elapsed_time`, `queries` counts `batch_get_builds` calls
made so far.  Returns the final query count together with either the
raised exception text or the callback body sent and the handler's
return string. -/
def pollLoop (event : ProvisioningEvent) (context : LambdaContext)
    (codebuild : BuildService) (build_id : String)
    (i elapsed queries : Nat) :
    Nat × Except String (ResponseBody × String) :=
  if _h : elapsed < 900 then
    if context.remaining_ms i / 1000 < 60 then
      (queries, .ok (timeoutBody event context build_id, retTimeout))
    else
      match codebuild.buildStatus i with
      | .error e => (queries + 1, .error e)
      | .ok status =>
        if status = "SUCCEEDED" then
          (queries + 1, .ok (successBody event context build_id, retSuccess))
        else if status ∈ terminalFailureStatuses then
          (queries + 1,
            .ok (failedBody event context status build_id, retBuildFailed))
        else
          pollLoop event context codebuild build_id (i + 1) (elapsed + 30)
            (queries + 1)
  else
    (queries, .ok (budgetBody event context build_id, retTimeout))
termination_by 900 - elapsed
decreasing_by omega

/-- Observable outcome of one invocation of `lambda_handler`: the
callback bodies sent (in order), the number of `start_build` calls, the
number of `batch_get_builds` calls, and the returned string. -/
structure HandlerResult where
  callbacks : List ResponseBody
  triggers : Nat
  queries : Nat
  ret : String
deriving Repr, DecidableEq

/-- `lambda_handler`: on a `Create` event, trigger the build and run the
poll loop, reporting the outcome (or the caught exception) through
exactly one `send`; on any other event, send the no-action success
callback. -/
def lambda_handler (event : ProvisioningEvent) (context : LambdaContext)
    (codebuild : BuildService) : HandlerResult :=
  if event.RequestType = "Create" then
    match codebuild.startBuild with
    | .error e =>
      { callbacks := [errorBody event context e]
        triggers := 1
        queries := 0
        ret := retError }
    | .ok build_id =>
      match pollLoop event context codebuild build_id 0 0 0 with
      | (q, .ok (cb, r)) =>
        { callbacks := [cb], triggers := 1, queries := q, ret := r }
      | (q, .error e) =>
        { callbacks := [errorBody event context e]
          triggers := 1
          queries := q
          ret := retError }
  else
    { callbacks := [noActionBody event context]
      triggers := 0
      queries := 0
      ret := retSuccess }

/-- The i-th `batch_get_builds` call answers with a non-terminal status
(the build is still in progress at iteration `i`). -/
def inProgressAt (codebuild : BuildService) (i : Nat) : Prop :=
  ∃ s, codebuild.buildStatus i = .ok s ∧ s ≠ "SUCCEEDED" ∧
    s ∉ terminalFailureStatuses

theorem ne_succeeded_of_terminal {s : String}
    (h : s ∈ terminalFailureStatuses) : s ≠ "SUCCEEDED" := by
  fin_cases h <;> decide

theorem pollLoop_budget (event : ProvisioningEvent) (context : LambdaContext)
    (codebuild : BuildService) (build_id : String) (i elapsed queries : Nat)
    (h : ¬ elapsed < 900) :
    pollLoop event context codebuild build_id i elapsed queries =
      (queries, .ok (budgetBody event context build_id, retTimeout)) := by
  rw [pollLoop]
  rw [dif_neg h]

theorem pollLoop_timeout (event : ProvisioningEvent) (context : LambdaContext)
    (codebuild : BuildService) (build_id : String) (i elapsed queries : Nat)
    (h : elapsed < 900) (hrem : context.remaining_ms i / 1000 < 60) :
    pollLoop event context codebuild build_id i elapsed queries =
      (queries, .ok (timeoutBody event context build_id, retTimeout)) := by
  rw [pollLoop]
  rw [dif_pos h, if_pos hrem]

theorem pollLoop_succeeded (event : ProvisioningEvent)
    (context : LambdaContext) (codebuild : BuildService) (build_id : String)
    (i elapsed queries : Nat) (h : elapsed < 900)
    (hrem : ¬ context.remaining_ms i / 1000 < 60)
    (hst : codebuild.buildStatus i = .ok "SUCCEEDED") :
    pollLoop event context codebuild build_id i elapsed queries =
      (queries + 1, .ok (successBody event context build_id, retSuccess)) := by
  rw [pollLoop]
  rw [dif_pos h, if_neg hrem, hst]
  simp

theorem pollLoop_failed (event : ProvisioningEvent) (context : LambdaContext)
    (codebuild : BuildService) (build_id : String) (i elapsed queries : Nat)
    (s : String) (h : elapsed < 900)
    (hrem : ¬ context.remaining_ms i / 1000 < 60)
    (hst : codebuild.buildStatus i = .ok s)
    (hterm : s ∈ terminalFailureStatuses) :
    pollLoop event context codebuild build_id i elapsed queries =
      (queries + 1,
        .ok (failedBody event context s build_id, retBuildFailed)) := by
  rw [pollLoop]
  rw [dif_pos h, if_neg hrem, hst]
  simp [ne_succeeded_of_terminal hterm, hterm]

theorem pollLoop_raises (event : ProvisioningEvent) (context : LambdaContext)
    (codebuild : BuildService) (build_id : String) (i elapsed queries : Nat)
    (e : String) (h : elapsed < 900)
    (hrem : ¬ context.remaining_ms i / 1000 < 60)
    (hst : codebuild.buildStatus i = .error e) :
    pollLoop event context codebuild build_id i elapsed queries =
      (queries + 1, .error e) := by
  rw [pollLoop]
  rw [dif_pos h, if_neg hrem, hst]

theorem pollLoop_progress (event : ProvisioningEvent)
    (context : LambdaContext) (codebuild : BuildService) (build_id : String)
    (i elapsed queries : Nat) (h : elapsed < 900)
    (hrem : ¬ context.remaining_ms i / 1000 < 60)
    (hprog : inProgressAt codebuild i) :
    pollLoop event context codebuild build_id i elapsed queries =
      pollLoop event context codebuild build_id (i + 1) (elapsed + 30)
        (queries + 1) := by
  obtain ⟨s, hst, hne, hnt⟩ := hprog
  rw [pollLoop]
  rw [dif_pos h, if_neg hrem, hst]
  simp [hne, hnt]

theorem pollLoop_steps (event : ProvisioningEvent) (context : LambdaContext)
    (codebuild : BuildService) (build_id : String) (n : Nat) :
    ∀ i elapsed queries,
    (∀ j, j < n → elapsed + 30 * j < 900) →
    (∀ j, j < n → ¬ context.remaining_ms (i + j) / 1000 < 60) →
    (∀ j, j < n → inProgressAt codebuild (i + j)) →
    pollLoop event context codebuild build_id i elapsed queries =
      pollLoop event context codebuild build_id (i + n) (elapsed + 30 * n)
        (queries + n) := by
  induction n with
  | zero => intro i elapsed queries _ _ _; simp
  | succ m ih =>
    intro i elapsed queries hel hrem hprog
    have h0 : elapsed < 900 := by
      have := hel 0 (by omega)
      omega
    have hrem0 : ¬ context.remaining_ms i / 1000 < 60 := by
      have := hrem 0 (by omega)
      simpa using this
    have hprog0 : inProgressAt codebuild i := by
      have := hprog 0 (by omega)
      simpa using this
    rw [pollLoop_progress event context codebuild build_id i elapsed queries
      h0 hrem0 hprog0]
    rw [ih (i + 1) (elapsed + 30) (queries + 1)
      (fun j hj => by have := hel (j + 1) (by omega); omega)
      (fun j hj => by
        have := hrem (j + 1) (by omega)
        rwa [show i + (j + 1) = i + 1 + j by omega] at this)
      (fun j hj => by
        have := hprog (j + 1) (by omega)
        rwa [show i + (j + 1) = i + 1 + j by omega] at this)]
    have e1 : i + 1 + m = i + (m + 1) := by omega
    have e2 : elapsed + 30 + 30 * m = elapsed + 30 * (m + 1) := by omega
    have e3 : queries + 1 + m = queries + (m + 1) := by omega
    rw [e1, e2, e3]

theorem pollLoop_ok_ids (event : ProvisioningEvent) (context : LambdaContext)
    (codebuild : BuildService) (build_id : String) (i elapsed queries : Nat) :
    ∀ cb r,
    (pollLoop event context codebuild build_id i elapsed queries).2 =
      .ok (cb, r) →
    cb.StackId = event.StackId ∧ cb.RequestId = event.RequestId ∧
      cb.LogicalResourceId = event.LogicalResourceId := by
  intro cb r hp
  by_cases h : elapsed < 900
  · by_cases hrem : context.remaining_ms i / 1000 < 60
    · rw [pollLoop_timeout event context codebuild build_id i elapsed queries
        h hrem] at hp
      simp at hp
      rw [← hp.1]
      exact ⟨rfl, rfl, rfl⟩
    · cases hst : codebuild.buildStatus i with
      | error e =>
        rw [pollLoop_raises event context codebuild build_id i elapsed queries
          e h hrem hst] at hp
        simp at hp
      | ok s =>
        by_cases hs : s = "SUCCEEDED"
        · subst hs
          rw [pollLoop_succeeded event context codebuild build_id i elapsed
            queries h hrem hst] at hp
          simp at hp
          rw [← hp.1]
          exact ⟨rfl, rfl, rfl⟩
        · by_cases hterm : s ∈ terminalFailureStatuses
          · rw [pollLoop_failed event context codebuild build_id i elapsed
              queries s h hrem hst hterm] at hp
            simp at hp
            rw [← hp.1]
            exact ⟨rfl, rfl, rfl⟩
          · rw [pollLoop_progress event context codebuild build_id i elapsed
              queries h hrem ⟨s, hst, hs, hterm⟩] at hp
            exact pollLoop_ok_ids event context codebuild build_id (i + 1)
              (elapsed + 30) (queries + 1) cb r hp
  · rw [pollLoop_budget event context codebuild build_id i elapsed queries
      h] at hp
    simp at hp
    rw [← hp.1]
    exact ⟨rfl, rfl, rfl⟩
termination_by 900 - elapsed
decreasing_by omega

theorem handler_non_create (event : ProvisioningEvent)
    (context : LambdaContext) (codebuild : BuildService)
    (h : ¬ event.RequestType = "Create") :
    lambda_handler event context codebuild =
      { callbacks := [noActionBody event context]
        triggers := 0
        queries := 0
        ret := retSuccess } := by
  unfold lambda_handler
  rw [if_neg h]

theorem handler_trigger_error (event : ProvisioningEvent)
    (context : LambdaContext) (codebuild : BuildService) (e : String)
    (hreq : event.RequestType = "Create")
    (hsb : codebuild.startBuild = .error e) :
    lambda_handler event context codebuild =
      { callbacks := [errorBody event context e]
        triggers := 1
        queries := 0
        ret := retError } := by
  unfold lambda_handler
  rw [if_pos hreq, hsb]

theorem handler_create_ok (event : ProvisioningEvent)
    (context : LambdaContext) (codebuild : BuildService)
    (build_id : String) (q : Nat) (cb : ResponseBody) (r : String)
    (hreq : event.RequestType = "Create")
    (hsb : codebuild.startBuild = .ok build_id)
    (hp : pollLoop event context codebuild build_id 0 0 0 = (q, .ok (cb, r))) :
    lambda_handler event context codebuild =
      { callbacks := [cb], triggers := 1, queries := q, ret := r } := by
  unfold lambda_handler
  rw [if_pos hreq, hsb]
  simp only []
  rw [hp]

theorem handler_create_raises (event : ProvisioningEvent)
    (context : LambdaContext) (codebuild : BuildService)
    (build_id : String) (q : Nat) (e : String)
    (hreq : event.RequestType = "Create")
    (hsb : codebuild.startBuild = .ok build_id)
    (hp : pollLoop event context codebuild build_id 0 0 0 = (q, .error e)) :
    lambda_handler event context codebuild =
      { callbacks := [errorBody event context e]
        triggers := 1
        queries := q
        ret := retError } := by
  unfold lambda_handler
  rw [if_pos hreq, hsb]
  simp only []
  rw [hp]

theorem utf8Size_eq_one_of_ascii (c : Char) (h : c.toNat < 128) :
    c.utf8Size = 1 := by
  unfold Char.utf8Size
  rw [if_pos]
  rw [UInt32.le_def]
  show c.toNat ≤ (0x7F : UInt32).toNat
  simpa using Nat.lt_succ_iff.mp h

theorem hexDigit_utf8Size (n : Nat) : (hexDigit n).utf8Size = 1 := by
  have h : n % 16 < 16 := Nat.mod_lt _ (by norm_num)
  unfold hexDigit
  set k := n % 16 with hk
  interval_cases k <;> decide

theorem toHex4_utf8Size (m : Nat) : ∀ d ∈ toHex4 m, d.utf8Size = 1 := by
  intro d hd
  simp [toHex4] at hd
  rcases hd with rfl | rfl | rfl | rfl <;> exact hexDigit_utf8Size _

theorem escapeChar_utf8Size (c : Char) : ∀ d ∈ escapeChar c, d.utf8Size = 1 := by
  intro d hd
  unfold escapeChar at hd
  split_ifs at hd with h1 h2 h3 h4 h5 h6 h7 h8 h9
  · simp only [List.mem_cons, List.not_mem_nil, or_false] at hd
    rcases hd with rfl | rfl <;> decide
  · simp only [List.mem_cons, List.not_mem_nil, or_false] at hd
    rcases hd with rfl | rfl <;> decide
  · simp only [List.mem_cons, List.not_mem_nil, or_false] at hd
    rcases hd with rfl | rfl <;> decide
  · simp only [List.mem_cons, List.not_mem_nil, or_false] at hd
    rcases hd with rfl | rfl <;> decide
  · simp only [List.mem_cons, List.not_mem_nil, or_false] at hd
    rcases hd with rfl | rfl <;> decide
  · simp only [List.mem_cons, List.not_mem_nil, or_false] at hd
    rcases hd with rfl | rfl <;> decide
  · simp only [List.mem_cons, List.not_mem_nil, or_false] at hd
    rcases hd with rfl | rfl <;> decide
  · simp only [List.mem_cons, List.not_mem_nil, or_false] at hd
    subst hd
    exact utf8Size_eq_one_of_ascii _ (by omega)
  · simp only [List.mem_cons] at hd
    rcases hd with rfl | rfl | h
    · decide
    · decide
    · exact toHex4_utf8Size _ d h
  · rcases List.mem_append.mp hd with h | h <;>
    · simp only [List.mem_cons] at h
      rcases h with rfl | rfl | h
      · decide
      · decide
      · exact toHex4_utf8Size _ d h

theorem escapeList_utf8Size (l : List Char) :
    ∀ d ∈ escapeList l, d.utf8Size = 1 := by
  induction l with
  | nil => intro d hd; cases hd
  | cons c cs ih =>
    intro d hd
    rcases List.mem_append.mp hd with h | h
    · exact escapeChar_utf8Size c d h
    · exact ih d h

theorem jstr_utf8Size (s : String) : ∀ d ∈ (jstr s).data, d.utf8Size = 1 := by
  intro d hd
  have hd2 : d ∈ '"' :: (escapeList s.data ++ ['"']) := hd
  simp only [List.mem_cons] at hd2
  rcases hd2 with rfl | hd2
  · decide
  · rcases List.mem_append.mp hd2 with h | h
    · exact escapeList_utf8Size s.data d h
    · simp only [List.mem_cons, List.not_mem_nil, or_false] at h
      subst h
      decide

theorem lit_utf8Size (s : String)
    (h : s.data.all (fun d => decide (d.toNat < 128)) = true) :
    ∀ d ∈ s.data, d.utf8Size = 1 := by
  intro d hd
  have := List.all_eq_true.mp h d hd
  exact utf8Size_eq_one_of_ascii d (by simpa using this)

theorem append_utf8Size (s t : String)
    (hs : ∀ d ∈ s.data, d.utf8Size = 1) (ht : ∀ d ∈ t.data, d.utf8Size = 1) :
    ∀ d ∈ (s ++ t).data, d.utf8Size = 1 := by
  intro d hd
  rw [String.data_append] at hd
  rcases List.mem_append.mp hd with h | h
  · exact hs d h
  · exact ht d h

theorem dumps_ascii (b : ResponseBody) :
    ∀ d ∈ (dumps b).data, d.utf8Size = 1 := by
  unfold dumps
  repeat' apply append_utf8Size
  all_goals first
    | exact jstr_utf8Size _
    | exact lit_utf8Size _ (by decide)
    | (cases b.NoEcho <;> exact lit_utf8Size _ (by decide))

theorem sum_map_utf8Size (l : List Char) (h : ∀ d ∈ l, d.utf8Size = 1) :
    (l.map Char.utf8Size).sum = l.length := by
  induction l with
  | nil => rfl
  | cons c cs ih =>
    simp only [List.map_cons, List.sum_cons, List.length_cons]
    rw [h c (by simp), ih (fun d hd => h d (by simp [hd]))]
    omega

theorem utf8Len_dumps (b : ResponseBody) :
    utf8Len (dumps b) = (dumps b).length := by
  unfold utf8Len String.length
  exact sum_map_utf8Size _ (dumps_ascii b)

/-- Sample create event used to instantiate the theorems below. -/
def sampleCreateEvent : ProvisioningEvent :=
  ⟨"Create", "https://callback.example", "stack-1", "req-1", "lr-1"⟩

/-- Sample non-create event. -/
def sampleUpdateEvent : ProvisioningEvent :=
  ⟨"Update", "https://callback.example", "stack-1", "req-1", "lr-1"⟩

/-- Context with 840 s of remaining execution time at every check. -/
def sampleContext : LambdaContext := ⟨"stream-1", fun _ => 840000⟩

/-- Context with only 50 s of remaining execution time (scenario D). -/
def lowTimeContext : LambdaContext := ⟨"stream-1", fun _ => 50000⟩

/-- Service whose build immediately reports SUCCEEDED. -/
def succeededService : BuildService :=
  ⟨.ok "bid-1", fun _ => .ok "SUCCEEDED"⟩

/-- Service whose build immediately reports FAILED. -/
def failedService : BuildService :=
  ⟨.ok "bid-1", fun _ => .ok "FAILED"⟩

/-- Service whose trigger call raises. -/
def errorService : BuildService :=
  ⟨.error "boom", fun _ => .ok "IN_PROGRESS"⟩

/-- Service whose first status query raises. -/
def raisingService : BuildService :=
  ⟨.ok "bid-1", fun _ => .error "poll boom"⟩

/-- C1: every invocation of `lambda_handler` sends exactly one callback
report, regardless of which exit path is taken (non-create, build
success, build terminal failure, imminent self-timeout, loop-budget
exhaustion, or caught exception). -/
theorem spec_C1_exactly_one_callback (event : ProvisioningEvent)
    (context : LambdaContext) (codebuild : BuildService) :
    (lambda_handler event context codebuild).callbacks.length = 1 := by
  by_cases hreq : event.RequestType = "Create"
  · cases hsb : codebuild.startBuild with
    | error e =>
      rw [handler_trigger_error event context codebuild e hreq hsb]
      rfl
    | ok bid =>
      rcases hp : pollLoop event context codebuild bid 0 0 0 with ⟨q, res⟩
      cases res with
      | ok pr =>
        rcases pr with ⟨cb, r⟩
        rw [handler_create_ok event context codebuild bid q cb r hreq hsb hp]
        rfl
      | error e =>
        rw [handler_create_raises event context codebuild bid q e hreq hsb
          hp]
        rfl
  · rw [handler_non_create event context codebuild hreq]
    rfl

/-- C2: for every event whose RequestType is not `"Create"`,
`lambda_handler` sends exactly one callback with Status `"SUCCESS"` and
Data message `"No action required"`, performs zero build-trigger calls
and zero status queries, and returns the success payload. -/
theorem spec_C2_non_create (event : ProvisioningEvent)
    (context : LambdaContext) (codebuild : BuildService)
    (h : event.RequestType ≠ "Create") :
    lambda_handler event context codebuild =
      { callbacks := [noActionBody event context]
        triggers := 0
        queries := 0
        ret := retSuccess } ∧
    (noActionBody event context).Status = "SUCCESS" ∧
    (noActionBody event context).Data = "No action required" ∧
    retSuccess = "\x7b \"status\": 200, \"message\": \"success\" \x7d" :=
  ⟨handler_non_create event context codebuild h, rfl, rfl, rfl⟩

/-- Witness for C2 on the Update event of scenario A. -/
theorem spec_C2_witness :
    lambda_handler sampleUpdateEvent sampleContext succeededService =
      { callbacks := [noActionBody sampleUpdateEvent sampleContext]
        triggers := 0
        queries := 0
        ret := retSuccess } :=
  (spec_C2_non_create sampleUpdateEvent sampleContext succeededService
    (by decide)).1

/-- C3: in every poll iteration the remaining-time check precedes the
status query: whenever remaining time is below 60 s at the start of an
iteration, the loop exits at once with one FAILED timeout callback, the
timeout return payload, and no status query in that iteration or after
(the query counter is returned unchanged, for every status oracle); in
particular, below-60 s on the first check means zero status queries in
the whole invocation. -/
theorem spec_C3_timeout_check_precedes_query (event : ProvisioningEvent)
    (context : LambdaContext) (codebuild : BuildService) :
    (∀ build_id i elapsed queries, elapsed < 900 →
      context.remaining_ms i / 1000 < 60 →
      pollLoop event context codebuild build_id i elapsed queries =
        (queries, .ok (timeoutBody event context build_id, retTimeout))) ∧
    (∀ build_id, event.RequestType = "Create" →
      codebuild.startBuild = .ok build_id →
      context.remaining_ms 0 / 1000 < 60 →
      lambda_handler event context codebuild =
        { callbacks := [timeoutBody event context build_id]
          triggers := 1
          queries := 0
          ret := retTimeout }) := by
  constructor
  · intro build_id i elapsed queries h hrem
    exact pollLoop_timeout event context codebuild build_id i elapsed queries
      h hrem
  · intro build_id hreq hsb hrem
    exact handler_create_ok event context codebuild build_id 0 _ _ hreq hsb
      (pollLoop_timeout event context codebuild build_id 0 0 0 (by norm_num)
        hrem)

/-- Witness for C3 on scenario D (50000 ms remaining on the first
check). -/
theorem spec_C3_witness :
    pollLoop sampleCreateEvent lowTimeContext succeededService "bid-1"
        0 0 0 =
      (0, .ok (timeoutBody sampleCreateEvent lowTimeContext "bid-1",
        retTimeout)) ∧
    lambda_handler sampleCreateEvent lowTimeContext succeededService =
      { callbacks := [timeoutBody sampleCreateEvent lowTimeContext "bid-1"]
        triggers := 1
        queries := 0
        ret := retTimeout } :=
  ⟨(spec_C3_timeout_check_precedes_query sampleCreateEvent lowTimeContext
      succeededService).1 "bid-1" 0 0 0 (by norm_num) (by decide),
   (spec_C3_timeout_check_precedes_query sampleCreateEvent lowTimeContext
      succeededService).2 "bid-1" rfl rfl (by decide)⟩

/-- C4: for every create event where the build reports SUCCEEDED at some
poll before the remaining-time threshold is crossed and before the 900 s
budget elapses (after any number of in-progress polls), exactly one
SUCCESS callback is sent whose Data message contains the build id, and
the handler returns the success payload. -/
theorem spec_C4_build_succeeded (event : ProvisioningEvent)
    (context : LambdaContext) (codebuild : BuildService)
    (build_id : String) (n : Nat)
    (hreq : event.RequestType = "Create")
    (hsb : codebuild.startBuild = .ok build_id)
    (hbudget : 30 * n < 900)
    (hrem : ∀ j, j ≤ n → ¬ context.remaining_ms j / 1000 < 60)
    (hprog : ∀ j, j < n → inProgressAt codebuild j)
    (hsucc : codebuild.buildStatus n = .ok "SUCCEEDED") :
    lambda_handler event context codebuild =
      { callbacks := [successBody event context build_id]
        triggers := 1
        queries := n + 1
        ret := retSuccess } ∧
    (successBody event context build_id).Status = "SUCCESS" ∧
    (successBody event context build_id).Data =
      "CodeBuild project completed successfully. Build ID: " ++ build_id := by
  refine ⟨?_, rfl, rfl⟩
  have hsteps := pollLoop_steps event context codebuild build_id n 0 0 0
    (fun j hj => by omega)
    (fun j hj => by simpa using hrem j (by omega))
    (fun j hj => by simpa using hprog j hj)
  simp only [Nat.zero_add] at hsteps
  apply handler_create_ok event context codebuild build_id (n + 1) _ _ hreq
    hsb
  rw [hsteps]
  exact pollLoop_succeeded event context codebuild build_id n (30 * n) n
    (by omega) (hrem n (Nat.le_refl n)) hsucc

/-- Witness for C4 on scenario B (SUCCEEDED on the first poll). -/
theorem spec_C4_witness :
    lambda_handler sampleCreateEvent sampleContext succeededService =
      { callbacks := [successBody sampleCreateEvent sampleContext "bid-1"]
        triggers := 1
        queries := 1
        ret := retSuccess } :=
  (spec_C4_build_succeeded sampleCreateEvent sampleContext succeededService
    "bid-1" 0 rfl rfl (by norm_num) (fun j _ => by show ¬ (840000 / 1000 < 60); decide)
    (fun j hj => absurd hj (by omega)) rfl).1

/-- C5: for every create event where some status query returns a value
in FAILED/FAULT/STOPPED/TIMED_OUT, exactly one FAILED callback is sent
whose message mentions that status value and the build id, the handler
returns the build-failed payload, and no further status query occurs
(the final query count is exactly that iteration's). -/
theorem spec_C5_build_terminal_failure (event : ProvisioningEvent)
    (context : LambdaContext) (codebuild : BuildService)
    (build_id s : String) (n : Nat)
    (hreq : event.RequestType = "Create")
    (hsb : codebuild.startBuild = .ok build_id)
    (hbudget : 30 * n < 900)
    (hrem : ∀ j, j ≤ n → ¬ context.remaining_ms j / 1000 < 60)
    (hprog : ∀ j, j < n → inProgressAt codebuild j)
    (hfail : codebuild.buildStatus n = .ok s)
    (hterm : s ∈ terminalFailureStatuses) :
    lambda_handler event context codebuild =
      { callbacks := [failedBody event context s build_id]
        triggers := 1
        queries := n + 1
        ret := retBuildFailed } ∧
    (failedBody event context s build_id).Status = "FAILED" ∧
    (failedBody event context s build_id).Data =
      "CodeBuild " ++ s ++ ". Build ID: " ++ build_id
        ++ ". Check CloudWatch logs." := by
  refine ⟨?_, rfl, rfl⟩
  have hsteps := pollLoop_steps event context codebuild build_id n 0 0 0
    (fun j hj => by omega)
    (fun j hj => by simpa using hrem j (by omega))
    (fun j hj => by simpa using hprog j hj)
  simp only [Nat.zero_add] at hsteps
  apply handler_create_ok event context codebuild build_id (n + 1) _ _ hreq
    hsb
  rw [hsteps]
  exact pollLoop_failed event context codebuild build_id n (30 * n) n s
    (by omega) (hrem n (Nat.le_refl n)) hfail hterm

/-- Witness for C5 on scenario C (FAILED on the first poll). -/
theorem spec_C5_witness :
    lambda_handler sampleCreateEvent sampleContext failedService =
      { callbacks :=
          [failedBody sampleCreateEvent sampleContext "FAILED" "bid-1"]
        triggers := 1
        queries := 1
        ret := retBuildFailed } :=
  (spec_C5_build_terminal_failure sampleCreateEvent sampleContext
    failedService "bid-1" "FAILED" 0 rfl rfl (by norm_num)
    (fun j _ => by show ¬ (840000 / 1000 < 60); decide) (fun j hj => absurd hj (by omega)) rfl
    (by decide)).1

/-- C6: no exception escapes `lambda_handler`: an exception raised by
the build trigger, or by a status query at any poll iteration, is caught
at the top level, exactly one FAILED callback carrying the exception
text is sent, and the error payload is returned. -/
theorem spec_C6_exceptions_caught (event : ProvisioningEvent)
    (context : LambdaContext) (codebuild : BuildService) :
    (∀ e, event.RequestType = "Create" →
      codebuild.startBuild = .error e →
      lambda_handler event context codebuild =
        { callbacks := [errorBody event context e]
          triggers := 1
          queries := 0
          ret := retError }) ∧
    (∀ build_id e n, event.RequestType = "Create" →
      codebuild.startBuild = .ok build_id →
      30 * n < 900 →
      (∀ j, j ≤ n → ¬ context.remaining_ms j / 1000 < 60) →
      (∀ j, j < n → inProgressAt codebuild j) →
      codebuild.buildStatus n = .error e →
      lambda_handler event context codebuild =
        { callbacks := [errorBody event context e]
          triggers := 1
          queries := n + 1
          ret := retError }) ∧
    (∀ e, (errorBody event context e).Status = "FAILED" ∧
      (errorBody event context e).Data = "Error: " ++ e) ∧
    retError = "\x7b \"status\": 500, \"message\": \"error\" \x7d" := by
  refine ⟨?_, ?_, fun e => ⟨rfl, rfl⟩, rfl⟩
  · intro e hreq hsb
    exact handler_trigger_error event context codebuild e hreq hsb
  · intro build_id e n hreq hsb hbudget hrem hprog hraise
    have hsteps := pollLoop_steps event context codebuild build_id n 0 0 0
      (fun j hj => by omega)
      (fun j hj => by simpa using hrem j (by omega))
      (fun j hj => by simpa using hprog j hj)
    simp only [Nat.zero_add] at hsteps
    apply handler_create_raises event context codebuild build_id (n + 1) e
      hreq hsb
    rw [hsteps]
    exact pollLoop_raises event context codebuild build_id n (30 * n) n e
      (by omega) (hrem n (Nat.le_refl n)) hraise

/-- Witness for C6: a raising trigger call (scenario E) and a raising
first status query. -/
theorem spec_C6_witness :
    lambda_handler sampleCreateEvent sampleContext errorService =
      { callbacks := [errorBody sampleCreateEvent sampleContext "boom"]
        triggers := 1
        queries := 0
        ret := retError } ∧
    lambda_handler sampleCreateEvent sampleContext raisingService =
      { callbacks := [errorBody sampleCreateEvent sampleContext "poll boom"]
        triggers := 1
        queries := 1
        ret := retError } :=
  ⟨(spec_C6_exceptions_caught sampleCreateEvent sampleContext
      errorService).1 "boom" rfl rfl,
   (spec_C6_exceptions_caught sampleCreateEvent sampleContext
      raisingService).2.1 "bid-1" "poll boom" 0 rfl rfl (by norm_num)
      (fun j _ => by show ¬ (840000 / 1000 < 60); decide) (fun j hj => absurd hj (by omega)) rfl⟩

/-- C7: `send` swallows transport exceptions, returning the empty dict
(`none`) instead of propagating, while an HTTP response with any status
code — 2xx or not — is not treated as a failure: `send` still returns
the report body. -/
theorem spec_C7_send_swallows_transport_errors (event : ProvisioningEvent)
    (context : LambdaContext) (responseStatus responseData : String)
    (physicalResourceId : Option String) (noEcho : Bool)
    (reason : Option String) :
    (∀ e, (send event context responseStatus responseData
        physicalResourceId noEcho reason (.exn e)).2 = none) ∧
    (∀ statusCode, (send event context responseStatus responseData
        physicalResourceId noEcho reason (.ok statusCode)).2 =
      some (buildResponseBody event context responseStatus responseData
        physicalResourceId noEcho reason)) :=
  ⟨fun _ => rfl, fun _ => rfl⟩

/-- C8: every callback report copies StackId, RequestId and
LogicalResourceId verbatim from the incoming event: both for every
argument combination of `send`, and for every callback `lambda_handler`
sends on any exit path. -/
theorem spec_C8_correlation_ids_copied (event : ProvisioningEvent)
    (context : LambdaContext) (codebuild : BuildService) :
    (∀ responseStatus responseData physicalResourceId noEcho reason,
      (buildResponseBody event context responseStatus responseData
        physicalResourceId noEcho reason).StackId = event.StackId ∧
      (buildResponseBody event context responseStatus responseData
        physicalResourceId noEcho reason).RequestId = event.RequestId ∧
      (buildResponseBody event context responseStatus responseData
        physicalResourceId noEcho reason).LogicalResourceId =
          event.LogicalResourceId) ∧
    (∀ cb, cb ∈ (lambda_handler event context codebuild).callbacks →
      cb.StackId = event.StackId ∧ cb.RequestId = event.RequestId ∧
        cb.LogicalResourceId = event.LogicalResourceId) := by
  constructor
  · intro _ _ _ _ _
    exact ⟨rfl, rfl, rfl⟩
  · intro cb hcb
    by_cases hreq : event.RequestType = "Create"
    · cases hsb : codebuild.startBuild with
      | error e =>
        rw [handler_trigger_error event context codebuild e hreq hsb] at hcb
        simp only [List.mem_cons, List.not_mem_nil, or_false] at hcb
        subst hcb
        exact ⟨rfl, rfl, rfl⟩
      | ok bid =>
        rcases hp : pollLoop event context codebuild bid 0 0 0 with ⟨q, res⟩
        cases res with
        | ok pr =>
          rcases pr with ⟨cb2, r⟩
          rw [handler_create_ok event context codebuild bid q cb2 r hreq hsb
            hp] at hcb
          simp only [List.mem_cons, List.not_mem_nil, or_false] at hcb
          subst hcb
          exact pollLoop_ok_ids event context codebuild bid 0 0 0 cb r
            (by rw [hp])
        | error e =>
          rw [handler_create_raises event context codebuild bid q e hreq hsb
            hp] at hcb
          simp only [List.mem_cons, List.not_mem_nil, or_false] at hcb
          subst hcb
          exact ⟨rfl, rfl, rfl⟩
    · rw [handler_non_create event context codebuild hreq] at hcb
      simp only [List.mem_cons, List.not_mem_nil, or_false] at hcb
      subst hcb
      exact ⟨rfl, rfl, rfl⟩

/-- Witness for C8 on the callback sent for an Update event. -/
theorem spec_C8_witness :
    (noActionBody sampleUpdateEvent sampleContext).StackId =
        sampleUpdateEvent.StackId ∧
    (noActionBody sampleUpdateEvent sampleContext).RequestId =
        sampleUpdateEvent.RequestId ∧
    (noActionBody sampleUpdateEvent sampleContext).LogicalResourceId =
        sampleUpdateEvent.LogicalResourceId :=
  (spec_C8_correlation_ids_copied sampleUpdateEvent sampleContext
    succeededService).2 (noActionBody sampleUpdateEvent sampleContext)
    (by decide)

/-- C9: the HTTP request issued by `send` is a PUT with content-type set
to the empty string, content-length equal to the byte length of the
serialized report body, and body exactly the serialized report. -/
theorem spec_C9_request_shape (event : ProvisioningEvent)
    (context : LambdaContext) (responseStatus responseData : String)
    (physicalResourceId : Option String) (noEcho : Bool)
    (reason : Option String) (transport : Transport) :
    (send event context responseStatus responseData physicalResourceId
        noEcho reason transport).1.method = "PUT" ∧
    (send event context responseStatus responseData physicalResourceId
        noEcho reason transport).1.contentType = "" ∧
    (send event context responseStatus responseData physicalResourceId
        noEcho reason transport).1.body =
      dumps (buildResponseBody event context responseStatus responseData
        physicalResourceId noEcho reason) ∧
    (send event context responseStatus responseData physicalResourceId
        noEcho reason transport).1.contentLength =
      toString (utf8Len (send event context responseStatus responseData
        physicalResourceId noEcho reason transport).1.body) := by
  cases transport <;>
    exact ⟨rfl, rfl, rfl, by simp only [send]; rw [utf8Len_dumps]⟩

/-- C10: `send` treats a falsy optional argument like an omitted one: a
`None` or empty-string reason yields the default reason naming the
log-stream, and a `None` or empty-string physical resource id yields the
log-stream name itself. -/
theorem spec_C10_falsy_optional_args (event : ProvisioningEvent)
    (context : LambdaContext) (responseStatus responseData : String)
    (noEcho : Bool) :
    ((buildResponseBody event context responseStatus responseData none
        noEcho none).Reason =
      "See the details in CloudWatch Log Stream: "
        ++ context.log_stream_name) ∧
    ((buildResponseBody event context responseStatus responseData none
        noEcho (some "")).Reason =
      "See the details in CloudWatch Log Stream: "
        ++ context.log_stream_name) ∧
    ((buildResponseBody event context responseStatus responseData none
        noEcho none).PhysicalResourceId = context.log_stream_name) ∧
    ((buildResponseBody event context responseStatus responseData
        (some "") noEcho none).PhysicalResourceId =
      context.log_stream_name) := by
  refine ⟨rfl, ?_, rfl, ?_⟩ <;> simp [buildResponseBody, pyOr]

end StartBuild
